import Mathlib

/-!
Shallow embedding of the player-movement / collision / building subsystem of
`src/main.js` (a three.js first-person city demo).

Conventions of the embedding:
* three.js `Vector3` / `Box3` components become exact rationals (`ℚ`); the
  JavaScript source performs the same arithmetic in IEEE doubles, and every
  claim here is about the real-number semantics of that arithmetic.
* The two transcendental quantities of the frame update are passed as
  parameters: `e` stands for `Math.exp(-params.accel * delta)` (line 678) and
  `s` stands for the reciprocal length used by `direction.normalize()`
  (line 666; `1` when the direction is zero, matching `divideScalar(length || 1)`).
  Both are irrational in general, so they cannot be rational constants; all
  theorems either hold for every value of the parameter or assume only the
  bounds that the true value satisfies (for example `0 ≤ e ≤ 1` for `delta ≥ 0`).
* Mesh construction (the `THREE.Group` built by `createBuilding`, lines
  218-421) is graphics-library work; a mesh is abstracted to the world-space
  bounding box that `new THREE.Box3().setFromObject(group)` computes for it.
-/

namespace CityWalk

/-- three.js `Vector3` with exact rational components. -/
structure Vec3 where
  x : ℚ
  y : ℚ
  z : ℚ
deriving DecidableEq, Repr

def Vec3.add (a b : Vec3) : Vec3 :=
  { x := a.x + b.x, y := a.y + b.y, z := a.z + b.z }

def Vec3.sub (a b : Vec3) : Vec3 :=
  { x := a.x - b.x, y := a.y - b.y, z := a.z - b.z }

/-- three.js `multiplyScalar`. -/
def Vec3.scale (c : ℚ) (v : Vec3) : Vec3 :=
  { x := c * v.x, y := c * v.y, z := c * v.z }

def vzero : Vec3 := { x := 0, y := 0, z := 0 }

/-- three.js `Vector3.lerp`: each component moves the fraction `t` of the way
from `a` to `b`. -/
def Vec3.lerp (a b : Vec3) (t : ℚ) : Vec3 :=
  { x := a.x + (b.x - a.x) * t
    y := a.y + (b.y - a.y) * t
    z := a.z + (b.z - a.z) * t }

/-- three.js `Box3`: an axis-aligned box given by its two corners. -/
structure Box3 where
  min : Vec3
  max : Vec3
deriving DecidableEq, Repr

/-- three.js `Box3.intersectsBox`: returns `false` exactly when the boxes are
separated along some axis (strict inequality), so touching boxes intersect. -/
def Box3.intersectsBox (a b : Box3) : Bool :=
  !(decide (b.max.x < a.min.x) || decide (b.min.x > a.max.x) ||
    decide (b.max.y < a.min.y) || decide (b.min.y > a.max.y) ||
    decide (b.max.z < a.min.z) || decide (b.min.z > a.max.z))

/-- Specification-level intersection of two axis-aligned boxes: the closed
intervals overlap on every axis. -/
def Box3.Overlaps (a b : Box3) : Prop :=
  a.min.x ≤ b.max.x ∧ b.min.x ≤ a.max.x ∧
  a.min.y ≤ b.max.y ∧ b.min.y ≤ a.max.y ∧
  a.min.z ≤ b.max.z ∧ b.min.z ≤ a.max.z

instance (a b : Box3) : Decidable (Box3.Overlaps a b) := by
  unfold Box3.Overlaps; infer_instance

/-- `playerHalfSize` (line 636): half-extents of the player's collision box. -/
def playerHalfSize : Vec3 := { x := 7/20, y := 9/10, z := 7/20 }

/-- The axis-aligned box centered at `pos` with half-extents `playerHalfSize`
(the box that `willCollide` builds at lines 640-643). -/
def playerBoxAt (pos : Vec3) : Box3 :=
  { min := Vec3.sub pos playerHalfSize, max := Vec3.add pos playerHalfSize }

/-- `willCollide` (lines 638-649): builds the player's box around `pos` and
scans `buildingBoxes`, returning `true` on the first intersecting box. -/
def willCollide (buildingBoxes : List Box3) (pos : Vec3) : Bool :=
  let playerBox := playerBoxAt pos
  buildingBoxes.any (fun b => playerBox.intersectsBox b)

theorem intersectsBox_eq_true_iff (a b : Box3) :
    a.intersectsBox b = true ↔ Box3.Overlaps a b := by
  simp only [Box3.intersectsBox, Box3.Overlaps, Bool.not_eq_true', Bool.or_eq_false_iff,
    decide_eq_false_iff_not, not_lt, gt_iff_lt]
  tauto

/-- C3: `willCollide pos` returns `true` exactly when the axis-aligned box
centered at `pos` with half-extents `(0.35, 0.9, 0.35)` intersects at least one
box of the `buildingBoxes` list; in particular it returns `false` on the empty
list. -/
theorem willCollide_iff_some_box_overlaps (boxes : List Box3) (pos : Vec3) :
    (willCollide boxes pos = true ↔ ∃ b ∈ boxes, Box3.Overlaps (playerBoxAt pos) b) ∧
    willCollide [] pos = false := by
  constructor
  · simp only [willCollide, List.any_eq_true, intersectsBox_eq_true_iff]
  · rfl

/-- `moveState` (lines 106-116): the keyboard-driven movement flags. -/
structure MoveState where
  forward : Bool
  backward : Bool
  left : Bool
  right : Bool
  sprint : Bool
  canJump : Bool
  fly : Bool
  flyUp : Bool
  flyDown : Bool
deriving DecidableEq, Repr

/-- `params` (lines 122-130), as exact rationals. -/
def walkSpeed : ℚ := 10

def sprintMultiplier : ℚ := 9/5

def accel : ℚ := 20

def friction : ℚ := 14

def gravity : ℚ := 30

def jumpSpeed : ℚ := 8

def flySpeed : ℚ := 20

/-- The key codes the two keyboard handlers distinguish; `other` stands for
every code that falls through the `switch`. -/
inductive KeyCode where
  | arrowUp
  | keyW
  | arrowLeft
  | keyA
  | arrowDown
  | keyS
  | arrowRight
  | keyD
  | shiftLeft
  | shiftRight
  | space
  | keyU
  | keyT
  | keyG
  | other
deriving DecidableEq, Repr

/-- `onKeyDown` (lines 133-177): updates the movement flags and, for Space and
KeyU, also the velocity vector. -/
def onKeyDown (k : KeyCode) (m : MoveState) (velocity : Vec3) : MoveState × Vec3 :=
  match k with
  | .arrowUp | .keyW => ({ m with forward := true }, velocity)
  | .arrowLeft | .keyA => ({ m with left := true }, velocity)
  | .arrowDown | .keyS => ({ m with backward := true }, velocity)
  | .arrowRight | .keyD => ({ m with right := true }, velocity)
  | .shiftLeft | .shiftRight => ({ m with sprint := true }, velocity)
  | .space =>
      if !m.fly && m.canJump then
        ({ m with canJump := false }, { velocity with y := jumpSpeed })
      else (m, velocity)
  | .keyU =>
      let m1 := { m with fly := !m.fly }
      if m1.fly then (m1, { velocity with y := 0 }) else (m1, velocity)
  | .keyT => ({ m with flyUp := true }, velocity)
  | .keyG => ({ m with flyDown := true }, velocity)
  | .other => (m, velocity)

/-- `onKeyUp` (lines 178-207): clears the movement flags. -/
def onKeyUp (k : KeyCode) (m : MoveState) : MoveState :=
  match k with
  | .arrowUp | .keyW => { m with forward := false }
  | .arrowLeft | .keyA => { m with left := false }
  | .arrowDown | .keyS => { m with backward := false }
  | .arrowRight | .keyD => { m with right := false }
  | .shiftLeft | .shiftRight => { m with sprint := false }
  | .keyT => { m with flyUp := false }
  | .keyG => { m with flyDown := false }
  | _ => m

/-- three.js quaternion (the camera orientation read at line 672). -/
structure Quat where
  x : ℚ
  y : ℚ
  z : ℚ
  w : ℚ
deriving DecidableEq, Repr

/-- three.js `Vector3.applyQuaternion`, component for component. -/
def applyQuaternion (q : Quat) (v : Vec3) : Vec3 :=
  let tx := 2 * (q.y * v.z - q.z * v.y)
  let ty := 2 * (q.z * v.x - q.x * v.z)
  let tz := 2 * (q.x * v.y - q.y * v.x)
  { x := v.x + q.w * tx + q.y * tz - q.z * ty
    y := v.y + q.w * ty + q.z * tx - q.x * tz
    z := v.z + q.w * tz + q.x * ty - q.y * tx }

/-- Lines 661-666 before normalisation: the raw movement-intent direction
(`z -= 1` for forward, `z += 1` for backward, `x -= 1` for left, `x += 1` for
right). -/
def rawDirection (m : MoveState) : Vec3 :=
  { x := (if m.right then 1 else 0) - (if m.left then 1 else 0)
    y := 0
    z := (if m.backward then 1 else 0) - (if m.forward then 1 else 0) }

/-- Lines 669-683: the horizontal acceleration / friction update, returning the
new `(velocity.x, velocity.z)`. `e` stands for `Math.exp(-params.accel * delta)`
and `s` for the normalisation factor of `direction.normalize()` (the reciprocal
of the direction's Euclidean length, `1` when that length is zero). -/
def horizVelUpdate (m : MoveState) (q : Quat) (delta e s : ℚ) (vel : Vec3) : ℚ × ℚ :=
  let direction := Vec3.scale s (rawDirection m)
  let speed := walkSpeed * (if m.sprint then sprintMultiplier else 1)
  let moveVec := applyQuaternion q { x := direction.x, y := 0, z := direction.z }
  let horizVel : Vec3 := { x := vel.x, y := 0, z := vel.z }
  let targetVel := Vec3.scale speed moveVec
  let lerped := Vec3.lerp horizVel targetVel (1 - e)
  let final :=
    if direction = vzero then Vec3.scale (max 0 (1 - friction * delta)) lerped
    else lerped
  (final.x, final.z)

/-- Lines 688-701: the vertical-velocity update. In fly mode gravity is not
accumulated and `velocity.y` is set to `0`; otherwise gravity is subtracted. -/
def updatedVelY (m : MoveState) (delta vy : ℚ) : ℚ :=
  if m.fly then 0 else vy - gravity * delta

/-- Lines 707-717: the vertical displacement of the frame. In fly mode it is
driven directly by the T/G keys at `flySpeed`; otherwise it integrates the
(already updated) vertical velocity `vy`. -/
def verticalMove (m : MoveState) (delta vy : ℚ) : ℚ :=
  if m.fly then
    (if m.flyUp then flySpeed * delta else 0) +
    (if m.flyDown then -(flySpeed * delta) else 0)
  else vy * delta

/-- Lines 703-720: the proposed next position before the ground clamp and the
collision checks (`nextPos = currentPos + horizontalMove; nextPos.y +=
verticalMove`). -/
def proposedPos (q : Quat) (delta e s : ℚ) (m : MoveState) (pos vel : Vec3) : Vec3 :=
  let hv := horizVelUpdate m q delta e s vel
  let vm := verticalMove m delta (updatedVelY m delta vel.y)
  { x := pos.x + hv.1 * delta, y := pos.y + vm, z := pos.z + hv.2 * delta }

/-- Lines 734-754: the fly-mode full-3D collision resolution. Returns the
committed position and the possibly zeroed `(velocity.x, velocity.z)`. -/
def flyCollision (boxes : List Box3) (cur next : Vec3) (vx vz : ℚ) : Vec3 × ℚ × ℚ :=
  if willCollide boxes next then
    if !willCollide boxes { x := next.x, y := cur.y, z := next.z } then
      ({ x := next.x, y := cur.y, z := next.z }, vx, vz)
    else
      if !willCollide boxes { x := cur.x, y := next.y, z := cur.z } then
        ({ x := cur.x, y := next.y, z := cur.z }, vx, vz)
      else (cur, 0, 0)
  else (next, vx, vz)

/-- Lines 755-779: the walking-mode sliding collision resolution, performed on
the positions projected to height `y = 1.0`. Returns the committed position and
the possibly zeroed `(velocity.x, velocity.z)`. -/
def walkCollision (boxes : List Box3) (cur next : Vec3) (vx vz : ℚ) : Vec3 × ℚ × ℚ :=
  if willCollide boxes { x := next.x, y := 1, z := next.z } then
    if !willCollide boxes { x := next.x, y := 1, z := cur.z } then
      ({ x := next.x, y := next.y, z := cur.z }, vx, vz)
    else
      if !willCollide boxes { x := cur.x, y := 1, z := next.z } then
        ({ x := cur.x, y := next.y, z := next.z }, vx, vz)
      else ({ x := cur.x, y := next.y, z := cur.z }, 0, 0)
  else (next, vx, vz)

/-- The result of one physics step of `animate`: the committed position, the
velocity vector after the frame, and the `canJump` flag after the frame. -/
structure PhysOut where
  pos : Vec3
  vel : Vec3
  canJump : Bool
deriving DecidableEq, Repr

/-- Lines 660-786: one physics step of the `animate` loop, for a frame with
time step `delta`, camera orientation `q`, exponential accel factor `e` and
direction-normalisation factor `s` (see `horizVelUpdate`). -/
def animateStep (boxes : List Box3) (q : Quat) (delta e s : ℚ)
    (m : MoveState) (pos vel : Vec3) : PhysOut :=
  let hv := horizVelUpdate m q delta e s vel
  let vy := updatedVelY m delta vel.y
  let next0 := proposedPos q delta e s m pos vel
  let clamp := !m.fly && decide (next0.y < 8/5)
  let vy1 := if clamp then 0 else vy
  let next1 := if clamp then { next0 with y := 8/5 } else next0
  let canJump1 := if clamp then true else m.canJump
  let res :=
    if m.fly then flyCollision boxes pos next1 hv.1 hv.2
    else walkCollision boxes pos next1 hv.1 hv.2
  { pos := res.1, vel := { x := res.2.1, y := vy1, z := res.2.2 }, canJump := canJump1 }

/-- A building mesh (`THREE.Group`), abstracted to the world-space bounding box
that `new THREE.Box3().setFromObject(group)` computes for it. -/
structure Mesh where
  bbox : Box3
deriving DecidableEq, Repr

/-- The two parallel module-level arrays (lines 212-213): `buildings` holds the
mesh handles and `buildingBoxes` their collision boxes. -/
structure CityState where
  buildings : List Mesh
  buildingBoxes : List Box3
deriving DecidableEq, Repr

/-- Lines 423-431 of `createBuilding`: once the group is constructed it is
appended to `buildings` and its freshly computed bounding box to
`buildingBoxes`. The geometry construction (lines 218-421) is abstracted into
the already-built `group` argument. -/
def createBuilding (st : CityState) (group : Mesh) : CityState :=
  { buildings := st.buildings ++ [group]
    buildingBoxes := st.buildingBoxes ++ [group.bbox] }

/-- `recomputeBoxes` (lines 627-631): for each index `i` below
`buildings.length`, mutate `buildingBoxes[i]` in place to the bounding box of
`buildings[i]`. If `buildingBoxes` is shorter than `buildings` the JavaScript
loop calls a method on `undefined` and throws, modelled by `none`; otherwise
the boxes beyond `buildings.length` are left untouched. -/
def recomputeBoxes (st : CityState) : Option CityState :=
  if st.buildings.length ≤ st.buildingBoxes.length then
    some { st with buildingBoxes :=
      st.buildings.map Mesh.bbox ++ st.buildingBoxes.drop st.buildings.length }
  else none

/-- A sidewalk tile record as pushed by `createSidewalkGrid` (lines 476-481):
its centre and its side length. -/
structure Tile where
  centerX : ℚ
  centerZ : ℚ
  tileSize : ℚ
deriving DecidableEq, Repr

/-- Lines 578-592 of `spawnBuildingsOnTiles`: the nine building centres of one
tile, in loop order (outer `rz`, inner `cx`), using the effective inner square
`min 30 (tileSize - 2)` split into a 3x3 grid of cells. -/
def cellsOf (t : Tile) : List (ℚ × ℚ) :=
  let effectiveInner := min 30 (t.tileSize - 2)
  let effectiveCell := effectiveInner / 3
  let half := effectiveInner / 2
  (List.range 3).flatMap (fun rz =>
    (List.range 3).map (fun cx =>
      (t.centerX + (-half + effectiveCell / 2 + (cx : ℚ) * effectiveCell),
       t.centerZ + (-half + effectiveCell / 2 + (rz : ℚ) * effectiveCell))))

/-- One iteration of the cell loop of `spawnBuildingsOnTiles` (lines 600-609):
`make` abstracts the construction of the `THREE.Group` for the `k`-th cell at
the given centre (its randomised width/depth/height included); `none` models a
thrown exception, which the `try/catch` swallows after logging, leaving the
arrays as they were. -/
def spawnStep (make : ℕ → ℚ × ℚ → Option Mesh) (acc : CityState)
    (kc : ℕ × (ℚ × ℚ)) : CityState :=
  match make kc.1 kc.2 with
  | some g => createBuilding acc g
  | none => acc

/-- `spawnBuildingsOnTiles` (lines 572-616): visit every cell of every tile in
order, attempt to create a building on each (exceptions caught), and finally
run `recomputeBoxes`. -/
def spawnBuildingsOnTiles (make : ℕ → ℚ × ℚ → Option Mesh) (tiles : List Tile)
    (st : CityState) : Option CityState :=
  let cells := tiles.flatMap cellsOf
  recomputeBoxes (cells.enum.foldl (spawnStep make) st)

/-- Line 657: the frame time step in seconds, clamped at `0.05`. -/
def frameDelta (timeMs prevTimeMs : ℚ) : ℚ :=
  min ((timeMs - prevTimeMs) / 1000) (1/20)

/-- The events the program reacts to after startup: an animation frame (with
the `performance.now()` timestamp, the camera orientation, and the two
transcendental parameters of `animateStep`), a keydown, a keyup, and a window
resize. -/
inductive Event where
  | frame (timeMs : ℚ) (q : Quat) (e s : ℚ)
  | keyDown (k : KeyCode)
  | keyUp (k : KeyCode)
  | resize
deriving DecidableEq, Repr

/-- The mutable program state the event handlers touch: the two building
arrays, the movement flags, the camera position, the velocity vector, and
`prevTime` of the animation loop. -/
structure World where
  city : CityState
  move : MoveState
  pos : Vec3
  vel : Vec3
  prevTime : ℚ
deriving DecidableEq, Repr

/-- One event of the running program: a frame runs the physics step of
`animate` (lines 654-790), key events run the two handlers, and a resize runs
`recomputeBoxes` (lines 793-798). -/
def stepEvent (ev : Event) (w : World) : Option World :=
  match ev with
  | .frame t q e s =>
      let out := animateStep w.city.buildingBoxes q (frameDelta t w.prevTime) e s
        w.move w.pos w.vel
      some { w with pos := out.pos, vel := out.vel,
                    move := { w.move with canJump := out.canJump }, prevTime := t }
  | .keyDown k =>
      let r := onKeyDown k w.move w.vel
      some { w with move := r.1, vel := r.2 }
  | .keyUp k => some { w with move := onKeyUp k w.move }
  | .resize =>
      match recomputeBoxes w.city with
      | some c => some { w with city := c }
      | none => none

/-! ### Concrete sample values (used by the witness theorems) -/

/-- All movement flags off. -/
def idleMove : MoveState :=
  { forward := false, backward := false, left := false, right := false, sprint := false,
    canJump := false, fly := false, flyUp := false, flyDown := false }

/-- Fly mode on with the fly-up key held. -/
def flyMoveUp : MoveState := { idleMove with fly := true, flyUp := true }

/-- The identity camera orientation. -/
def qId : Quat := { x := 0, y := 0, z := 0, w := 1 }

/-- A sample building box. -/
def sampleBox : Box3 :=
  { min := { x := 1, y := 0, z := -1 }, max := { x := 3, y := 10, z := 1 } }

/-- A sample mesh. -/
def sampleMesh : Mesh := { bbox := sampleBox }

/-- The empty pair of building arrays. -/
def emptyCity : CityState := { buildings := [], buildingBoxes := [] }

/-- A sample world at the spawn point with no buildings. -/
def sampleWorld : World :=
  { city := emptyCity, move := idleMove, pos := { x := 0, y := 8/5, z := 5 },
    vel := vzero, prevTime := 0 }

/-- The sample world with the jump flag armed. -/
def jumpWorld : World := { sampleWorld with move := { idleMove with canJump := true } }

/-- A sample tile of the sidewalk grid. -/
def sampleTile : Tile := { centerX := 0, centerZ := 0, tileSize := 40 }

/-- A sample builder oracle that throws on every odd cell. -/
def sampleMake (k : ℕ) (_ : ℚ × ℚ) : Option Mesh :=
  if k % 2 = 0 then some sampleMesh else none

/-! ### Theorems for the claims -/

/-- C10: the physics time step of a frame equals the minimum of the real
elapsed time in seconds and `0.05`, and therefore never exceeds `0.05`,
however long the browser paused between animation frames. -/
theorem frameDelta_clamped (timeMs prevTimeMs : ℚ) :
    frameDelta timeMs prevTimeMs = min ((timeMs - prevTimeMs) / 1000) (1/20) ∧
    frameDelta timeMs prevTimeMs ≤ 1/20 := by
  exact ⟨rfl, min_le_right _ _⟩

/-- C4: `createBuilding` appends exactly one element to each of the two
parallel arrays (so equal lengths are preserved), and `recomputeBoxes`, when
the boxes array is at least as long as the buildings array, succeeds, leaves
the buildings untouched, and does not change the length of either array. -/
theorem building_arrays_stay_parallel (st : CityState) (g : Mesh) :
    (createBuilding st g).buildings.length = st.buildings.length + 1 ∧
    (createBuilding st g).buildingBoxes.length = st.buildingBoxes.length + 1 ∧
    (st.buildings.length = st.buildingBoxes.length →
      (createBuilding st g).buildings.length =
        (createBuilding st g).buildingBoxes.length) ∧
    (st.buildings.length ≤ st.buildingBoxes.length →
      ∃ st1, recomputeBoxes st = some st1 ∧ st1.buildings = st.buildings ∧
        st1.buildingBoxes.length = st.buildingBoxes.length) := by
  refine ⟨by simp [createBuilding], by simp [createBuilding], ?_, ?_⟩
  · intro h
    simp [createBuilding, h]
  · intro h
    refine ⟨{ st with buildingBoxes :=
        st.buildings.map Mesh.bbox ++ st.buildingBoxes.drop st.buildings.length },
      ?_, rfl, ?_⟩
    · simp [recomputeBoxes, h]
    · simp [List.length_drop]
      omega

/-- Witness for C4 at a concrete state, the final hypothesis discharged. -/
theorem building_arrays_stay_parallel_witness :
    (createBuilding emptyCity sampleMesh).buildings.length =
        emptyCity.buildings.length + 1 ∧
    ∃ st1, recomputeBoxes emptyCity = some st1 ∧ st1.buildings = emptyCity.buildings ∧
      st1.buildingBoxes.length = emptyCity.buildingBoxes.length :=
  ⟨(building_arrays_stay_parallel emptyCity sampleMesh).1,
   (building_arrays_stay_parallel emptyCity sampleMesh).2.2.2 (by decide)⟩

/-- C1: vertical handling of a frame. When fly mode is off the vertical
velocity is decreased by `gravity * delta` and the frame's vertical
displacement integrates exactly that decreased velocity. When fly mode is on,
gravity is not applied and the vertical velocity is set to `0`; the vertical
displacement is `+flySpeed * delta` when only `flyUp` is held,
`-flySpeed * delta` when only `flyDown` is held, and `0` when both or neither
are held; moreover the velocity the frame commits has `y = 0`. -/
theorem vertical_update_spec (m : MoveState) (delta vy : ℚ) :
    (m.fly = false →
      updatedVelY m delta vy = vy - gravity * delta ∧
      verticalMove m delta (updatedVelY m delta vy) = (vy - gravity * delta) * delta) ∧
    (m.fly = true →
      updatedVelY m delta vy = 0 ∧
      (m.flyUp = true → m.flyDown = false →
        verticalMove m delta (updatedVelY m delta vy) = flySpeed * delta) ∧
      (m.flyUp = false → m.flyDown = true →
        verticalMove m delta (updatedVelY m delta vy) = -(flySpeed * delta)) ∧
      (m.flyUp = m.flyDown →
        verticalMove m delta (updatedVelY m delta vy) = 0) ∧
      (∀ (boxes : List Box3) (q : Quat) (e s : ℚ) (pos vel : Vec3),
        (animateStep boxes q delta e s m pos vel).vel.y = 0)) := by
  constructor
  · intro hfly
    simp [updatedVelY, verticalMove, hfly]
  · intro hfly
    refine ⟨by simp [updatedVelY, hfly], ?_, ?_, ?_, ?_⟩
    · intro hu hd
      simp [verticalMove, hfly, hu, hd]
    · intro hu hd
      simp [verticalMove, hfly, hu, hd]
    · intro hud
      cases hu : m.flyUp with
      | false => simp [verticalMove, hfly, hu, hud ▸ hu]
      | true => simp [verticalMove, hfly, hu, hud ▸ hu]
    · intro boxes q e s pos vel
      simp [animateStep, hfly, updatedVelY]

/-- C2: walking-mode sliding collision. If the proposed position projected to
height `y = 1` is free, the full move is committed. Otherwise the update first
tries keeping only the X movement (reverting Z), then only the Z movement
(reverting X), committing whichever single-axis move is free (X has priority);
when both are blocked the horizontal position stays at the current one and both
horizontal velocity components are set to `0`. -/
theorem walk_sliding_collision (boxes : List Box3) (cur next : Vec3) (vx vz : ℚ) :
    (willCollide boxes { x := next.x, y := 1, z := next.z } = false →
      walkCollision boxes cur next vx vz = (next, vx, vz)) ∧
    (willCollide boxes { x := next.x, y := 1, z := next.z } = true →
      (willCollide boxes { x := next.x, y := 1, z := cur.z } = false →
        walkCollision boxes cur next vx vz =
          ({ x := next.x, y := next.y, z := cur.z }, vx, vz)) ∧
      (willCollide boxes { x := next.x, y := 1, z := cur.z } = true →
        (willCollide boxes { x := cur.x, y := 1, z := next.z } = false →
          walkCollision boxes cur next vx vz =
            ({ x := cur.x, y := next.y, z := next.z }, vx, vz)) ∧
        (willCollide boxes { x := cur.x, y := 1, z := next.z } = true →
          walkCollision boxes cur next vx vz =
            ({ x := cur.x, y := next.y, z := cur.z }, 0, 0)))) := by
  refine ⟨fun h0 => ?_, fun h0 => ⟨fun hx => ?_, fun hx => ⟨fun hz => ?_, fun hz => ?_⟩⟩⟩
  all_goals simp_all [walkCollision]

/-- Witness for C2: a box straight ahead, so that only the Z move is blocked
and the X move slides. -/
theorem walk_sliding_collision_witness :
    willCollide [sampleBox] { x := 1, y := 1, z := 0 } = true ∧
    willCollide [sampleBox] { x := 1, y := 1, z := -3 } = false ∧
    walkCollision [sampleBox] { x := 0, y := 8/5, z := -3 } { x := 1, y := 8/5, z := 0 } 5 5 =
      ({ x := 1, y := 8/5, z := -3 }, 5, 5) :=
  ⟨by norm_num [willCollide, playerBoxAt, Box3.intersectsBox, Vec3.add, Vec3.sub,
      playerHalfSize, sampleBox],
   by norm_num [willCollide, playerBoxAt, Box3.intersectsBox, Vec3.add, Vec3.sub,
      playerHalfSize, sampleBox],
   ((walk_sliding_collision [sampleBox] { x := 0, y := 8/5, z := -3 }
      { x := 1, y := 8/5, z := 0 } 5 5).2
     (by norm_num [willCollide, playerBoxAt, Box3.intersectsBox, Vec3.add, Vec3.sub,
        playerHalfSize, sampleBox])).1
     (by norm_num [willCollide, playerBoxAt, Box3.intersectsBox, Vec3.add, Vec3.sub,
        playerHalfSize, sampleBox])⟩

/-- In every branch, the fly-mode collision resolution commits a position that
was either checked collision-free or is the current position itself. -/
theorem flyCollision_safe (boxes : List Box3) (cur next : Vec3) (vx vz : ℚ)
    (h : willCollide boxes cur = false) :
    willCollide boxes (flyCollision boxes cur next vx vz).1 = false := by
  unfold flyCollision
  rcases h1 : willCollide boxes next with _ | _
  · simp [h1]
  · rcases h2 : willCollide boxes { x := next.x, y := cur.y, z := next.z } with _ | _
    · simp [h1, h2]
    · rcases h3 : willCollide boxes { x := cur.x, y := next.y, z := cur.z } with _ | _
      · simp [h1, h2, h3]
      · simpa [h1, h2, h3] using h

/-- C8: in fly mode, a frame starting from a position outside every building
box commits a position that is also outside every building box: each candidate
move (full, vertical-cancelled, horizontal-cancelled) is committed only after
`willCollide` clears it, and otherwise the player stays exactly where they
were. -/
theorem fly_never_enters_building (boxes : List Box3) (q : Quat) (delta e s : ℚ)
    (m : MoveState) (pos vel : Vec3) (hfly : m.fly = true)
    (hsafe : willCollide boxes pos = false) :
    willCollide boxes (animateStep boxes q delta e s m pos vel).pos = false := by
  have h := flyCollision_safe boxes pos
    (proposedPos q delta e s m pos vel)
    (horizVelUpdate m q delta e s vel).1 (horizVelUpdate m q delta e s vel).2 hsafe
  simpa [animateStep, hfly] using h

/-- Witness for C8: flying up from below with a box overhead-adjacent; the
committed position stays collision-free. -/
theorem fly_never_enters_building_witness :
    flyMoveUp.fly = true ∧
    willCollide [sampleBox] { x := 2, y := 20, z := 0 } = false ∧
    willCollide [sampleBox]
      (animateStep [sampleBox] qId (1/20) (1/2) 1 flyMoveUp
        { x := 2, y := 20, z := 0 } vzero).pos = false :=
  ⟨rfl,
   by norm_num [willCollide, playerBoxAt, Box3.intersectsBox, Vec3.add, Vec3.sub,
      playerHalfSize, sampleBox],
   fly_never_enters_building [sampleBox] qId (1/20) (1/2) 1 flyMoveUp
     { x := 2, y := 20, z := 0 } vzero rfl
     (by norm_num [willCollide, playerBoxAt, Box3.intersectsBox, Vec3.add, Vec3.sub,
        playerHalfSize, sampleBox])⟩

/-- C6: when no movement key is in effect (the direction vector is zero) and
`delta ≥ 0`, the horizontal speed after the acceleration/friction update never
exceeds the one before: the lerp toward the zero target followed by the
friction factor `max 0 (1 - friction * delta)` can only shrink the horizontal
velocity. Speeds are compared through their squares, which is equivalent for
the nonnegative magnitudes; `e` stands for `Math.exp (-accel * delta)`, which
lies in `(0, 1]` whenever `delta ≥ 0`, so only `0 ≤ e ≤ 1` is assumed. -/
theorem idle_update_never_speeds_up (m : MoveState) (q : Quat) (delta e s : ℚ)
    (vel : Vec3) (hdir : rawDirection m = vzero) (hdelta : 0 ≤ delta)
    (he0 : 0 ≤ e) (he1 : e ≤ 1) :
    (horizVelUpdate m q delta e s vel).1 ^ 2 + (horizVelUpdate m q delta e s vel).2 ^ 2 ≤
      vel.x ^ 2 + vel.z ^ 2 := by
  have hfr : (0:ℚ) ≤ friction * delta := by
    have h14 : (0:ℚ) ≤ friction := by norm_num [friction]
    exact mul_nonneg h14 hdelta
  have hc0 : (0:ℚ) ≤ max 0 (1 - friction * delta) := le_max_left _ _
  have hc1 : max 0 (1 - friction * delta) ≤ 1 := max_le (by norm_num) (by linarith)
  simp only [horizVelUpdate, hdir, vzero, Vec3.scale, mul_zero, applyQuaternion,
    Vec3.lerp, sub_zero, zero_sub, zero_mul, add_zero, zero_add, mul_neg, neg_zero,
    sub_self, if_true, reduceIte]
  set c := max 0 (1 - friction * delta) with hc
  nlinarith [sq_nonneg vel.x, sq_nonneg vel.z, sq_nonneg (c * e),
    mul_nonneg hc0 he0, mul_le_one₀ hc1 he0 he1,
    sq_nonneg (vel.x * (1 - c * e)), sq_nonneg (vel.z * (1 - c * e))]

/-- Witness for C6 at a concrete idle state. -/
theorem idle_update_never_speeds_up_witness :
    rawDirection idleMove = vzero ∧ (0:ℚ) ≤ 1/20 ∧ (0:ℚ) ≤ 1/2 ∧ (1:ℚ)/2 ≤ 1 ∧
    (horizVelUpdate idleMove qId (1/20) (1/2) 1 { x := 3, y := 0, z := 4 }).1 ^ 2 +
        (horizVelUpdate idleMove qId (1/20) (1/2) 1 { x := 3, y := 0, z := 4 }).2 ^ 2 ≤
      (3:ℚ) ^ 2 + (4:ℚ) ^ 2 :=
  ⟨by norm_num [rawDirection, idleMove, vzero], by norm_num, by norm_num, by norm_num,
   idle_update_never_speeds_up idleMove qId (1/20) (1/2) 1 { x := 3, y := 0, z := 4 }
     (by norm_num [rawDirection, idleMove, vzero]) (by norm_num) (by norm_num) (by norm_num)⟩

/-- Witness for C1, one walking and one flying instance. -/
theorem vertical_update_spec_witness :
    (updatedVelY idleMove 1 5 = 5 - gravity * 1 ∧
      verticalMove idleMove 1 (updatedVelY idleMove 1 5) = (5 - gravity * 1) * 1) ∧
    verticalMove flyMoveUp 1 (updatedVelY flyMoveUp 1 5) = flySpeed * 1 :=
  ⟨(vertical_update_spec idleMove 1 5).1 rfl,
   ((vertical_update_spec flyMoveUp 1 5).2 rfl).2.1 rfl rfl⟩

/-- The walking-mode collision resolution never changes the committed `y`. -/
theorem walkCollision_fst_y (boxes : List Box3) (cur next : Vec3) (vx vz : ℚ) :
    (walkCollision boxes cur next vx vz).1.y = next.y := by
  unfold walkCollision
  split_ifs <;> rfl

/-- `onKeyDown` never turns the jump flag on. -/
theorem onKeyDown_canJump (k : KeyCode) (m : MoveState) (v : Vec3)
    (h : (onKeyDown k m v).1.canJump = true) : m.canJump = true := by
  cases k <;> simp only [onKeyDown] at h <;> try split_ifs at h
  all_goals simp_all

/-- `onKeyUp` never changes the jump flag. -/
theorem onKeyUp_canJump (k : KeyCode) (m : MoveState) :
    (onKeyUp k m).canJump = m.canJump := by
  cases k <;> rfl

/-- A frame turns the jump flag on only through the ground clamp: walking mode
with the proposed `y` below `1.6`. -/
theorem animateStep_canJump (boxes : List Box3) (q : Quat) (delta e s : ℚ)
    (m : MoveState) (pos vel : Vec3)
    (h : (animateStep boxes q delta e s m pos vel).canJump = true) :
    m.canJump = true ∨
      (m.fly = false ∧ (proposedPos q delta e s m pos vel).y < 8/5) := by
  by_cases hfly : m.fly = true
  · left
    simpa [animateStep, hfly] using h
  · simp only [Bool.not_eq_true] at hfly
    by_cases hy : (proposedPos q delta e s m pos vel).y < 8/5
    · exact Or.inr ⟨hfly, hy⟩
    · left
      simpa [animateStep, hfly, hy] using h

/-- C9: walking-mode ground handling. When fly mode is off, every frame commits
a `y` of at least `1.6`; whenever the ground clamp fires (the proposed `y` is
below `1.6`) the frame also zeroes the vertical velocity and turns `canJump`
on; and across every event of the program, the clamp is the only thing that
ever turns `canJump` on. -/
theorem ground_clamp_spec :
    (∀ (boxes : List Box3) (q : Quat) (delta e s : ℚ) (m : MoveState) (pos vel : Vec3),
      m.fly = false →
      8/5 ≤ (animateStep boxes q delta e s m pos vel).pos.y ∧
      ((proposedPos q delta e s m pos vel).y < 8/5 →
        (animateStep boxes q delta e s m pos vel).vel.y = 0 ∧
        (animateStep boxes q delta e s m pos vel).canJump = true)) ∧
    (∀ (ev : Event) (w w1 : World), stepEvent ev w = some w1 →
      w1.move.canJump = true →
      w.move.canJump = true ∨
      ∃ t q e s, ev = Event.frame t q e s ∧ w.move.fly = false ∧
        (proposedPos q (frameDelta t w.prevTime) e s w.move w.pos w.vel).y < 8/5) := by
  constructor
  · intro boxes q delta e s m pos vel hfly
    constructor
    · by_cases hy : (proposedPos q delta e s m pos vel).y < 8/5
      · simp [animateStep, hfly, hy, walkCollision_fst_y]
      · have h8 := not_lt.mp hy
        simp only [animateStep, hfly, hy, Bool.not_false, Bool.true_and,
          decide_eq_true_eq, if_false, walkCollision_fst_y]
        simpa [walkCollision_fst_y] using h8
    · intro hy
      constructor <;> simp [animateStep, hfly, hy]
  · intro ev w w1 hstep hcj
    cases ev with
    | frame t q e s =>
        simp only [stepEvent, Option.some.injEq] at hstep
        subst hstep
        simp only at hcj
        rcases animateStep_canJump w.city.buildingBoxes q (frameDelta t w.prevTime) e s
            w.move w.pos w.vel hcj with hl | ⟨hfly, hy⟩
        · exact Or.inl hl
        · exact Or.inr ⟨t, q, e, s, rfl, hfly, hy⟩
    | keyDown k =>
        simp only [stepEvent, Option.some.injEq] at hstep
        subst hstep
        simp only at hcj
        exact Or.inl (onKeyDown_canJump k w.move w.vel hcj)
    | keyUp k =>
        simp only [stepEvent, Option.some.injEq] at hstep
        subst hstep
        simp only at hcj
        rw [onKeyUp_canJump] at hcj
        exact Or.inl hcj
    | resize =>
        rcases hr : recomputeBoxes w.city with _ | c
        · simp [stepEvent, hr] at hstep
        · simp only [stepEvent, hr, Option.some.injEq] at hstep
          subst hstep
          exact Or.inl hcj

/-- Witness for C9: a walking frame from the sample world, and a keyup event
on the armed world. -/
theorem ground_clamp_spec_witness :
    (8/5 ≤ (animateStep [] qId (1/20) (1/2) 1 idleMove sampleWorld.pos vzero).pos.y) ∧
    (jumpWorld.move.canJump = true ∨
      ∃ t q e s, Event.keyUp KeyCode.keyW = Event.frame t q e s ∧
        jumpWorld.move.fly = false ∧
        (proposedPos q (frameDelta t jumpWorld.prevTime) e s jumpWorld.move
          jumpWorld.pos jumpWorld.vel).y < 8/5) :=
  ⟨(ground_clamp_spec.1 [] qId (1/20) (1/2) 1 idleMove sampleWorld.pos vzero rfl).1,
   ground_clamp_spec.2 (Event.keyUp KeyCode.keyW) jumpWorld
     { jumpWorld with move := { jumpWorld.move with forward := false } } rfl rfl⟩

/-- The cell-loop fold: every visited cell whose builder succeeds appends one
element to each array, whatever failures happen in between. -/
theorem spawnFold_lengths (make : ℕ → ℚ × ℚ → Option Mesh) :
    ∀ (l : List (ℕ × (ℚ × ℚ))) (st : CityState),
      (l.foldl (spawnStep make) st).buildings.length =
        st.buildings.length +
          (l.filter (fun kc => (make kc.1 kc.2).isSome)).length ∧
      (l.foldl (spawnStep make) st).buildingBoxes.length =
        st.buildingBoxes.length +
          (l.filter (fun kc => (make kc.1 kc.2).isSome)).length := by
  intro l
  induction l with
  | nil => intro st; simp
  | cons hd tl ih =>
      intro st
      rcases h : make hd.1 hd.2 with _ | g
      · have hs : spawnStep make st hd = st := by simp [spawnStep, h]
        have hp : (make hd.1 hd.2).isSome = false := by simp [h]
        simpa [List.foldl_cons, hs, List.filter_cons, hp] using ih st
      · have hs : spawnStep make st hd = createBuilding st g := by simp [spawnStep, h]
        have hp : (make hd.1 hd.2).isSome = true := by simp [h]
        obtain ⟨ih1, ih2⟩ := ih (createBuilding st g)
        simp only [List.foldl_cons, hs, List.filter_cons, hp, if_true, List.length_cons]
        constructor
        · rw [ih1]
          simp [createBuilding]
          omega
        · rw [ih2]
          simp [createBuilding]
          omega

/-- Every tile contributes exactly nine cells. -/
theorem cellsOf_length (t : Tile) : (cellsOf t).length = 9 := rfl

/-- The full cell list covers nine cells per tile. -/
theorem flatMap_cellsOf_length (tiles : List Tile) :
    (tiles.flatMap cellsOf).length = 9 * tiles.length := by
  induction tiles with
  | nil => simp
  | cons hd tl ih =>
      simp only [List.flatMap_cons, List.length_append, cellsOf_length, ih,
        List.length_cons]
      ring

/-- When the arrays have equal length, `recomputeBoxes` succeeds and rewrites
the boxes to the bounding boxes of the buildings. -/
theorem recomputeBoxes_of_eq_lengths (st : CityState)
    (h : st.buildings.length = st.buildingBoxes.length) :
    recomputeBoxes st = some { st with buildingBoxes := st.buildings.map Mesh.bbox } := by
  rw [recomputeBoxes, if_pos h.le, h, List.drop_length, List.append_nil]

/-- C5: the try/catch around `createBuilding` keeps `spawnBuildingsOnTiles`
going. For every tile list and every pattern of construction failures, every
cell of every tile (nine per tile) is attempted, every successful cell appends
its building even when earlier cells failed, and `recomputeBoxes` still runs at
the end (the returned state has its boxes recomputed from the buildings). -/
theorem spawn_survives_failures (make : ℕ → ℚ × ℚ → Option Mesh) (tiles : List Tile)
    (st : CityState) (h : st.buildings.length = st.buildingBoxes.length) :
    ∃ st1, spawnBuildingsOnTiles make tiles st = some st1 ∧
      st1.buildings.length = st.buildings.length +
        (((tiles.flatMap cellsOf).enum.filter
            (fun kc => (make kc.1 kc.2).isSome)).length) ∧
      (tiles.flatMap cellsOf).length = 9 * tiles.length ∧
      st1.buildingBoxes = st1.buildings.map Mesh.bbox := by
  obtain ⟨hb, hx⟩ := spawnFold_lengths make ((tiles.flatMap cellsOf).enum) st
  have heq : (((tiles.flatMap cellsOf).enum).foldl (spawnStep make) st).buildings.length =
      (((tiles.flatMap cellsOf).enum).foldl (spawnStep make) st).buildingBoxes.length := by
    omega
  refine ⟨{ ((tiles.flatMap cellsOf).enum.foldl (spawnStep make) st) with
      buildingBoxes :=
        ((tiles.flatMap cellsOf).enum.foldl (spawnStep make) st).buildings.map Mesh.bbox },
    ?_, ?_, flatMap_cellsOf_length tiles, rfl⟩
  · unfold spawnBuildingsOnTiles
    exact recomputeBoxes_of_eq_lengths _ heq
  · simpa using hb

/-- Witness for C5: one tile, the builder failing on every odd cell. -/
theorem spawn_survives_failures_witness :
    ∃ st1, spawnBuildingsOnTiles sampleMake [sampleTile] emptyCity = some st1 ∧
      st1.buildings.length = emptyCity.buildings.length +
        ((([sampleTile].flatMap cellsOf).enum.filter
            (fun kc => (sampleMake kc.1 kc.2).isSome)).length) ∧
      ([sampleTile].flatMap cellsOf).length = 9 * [sampleTile].length ∧
      st1.buildingBoxes = st1.buildings.map Mesh.bbox :=
  spawn_survives_failures sampleMake [sampleTile] emptyCity rfl

/-- Any successful `recomputeBoxes` keeps the buildings and the box count. -/
theorem recomputeBoxes_shape (st c : CityState) (h : recomputeBoxes st = some c) :
    c.buildings = st.buildings ∧
    c.buildingBoxes.length = st.buildingBoxes.length := by
  by_cases hle : st.buildings.length ≤ st.buildingBoxes.length
  · rw [recomputeBoxes, if_pos hle, Option.some.injEq] at h
    subst h
    constructor
    · rfl
    · simp only [List.length_append, List.length_map, List.length_drop]
      omega
  · rw [recomputeBoxes, if_neg hle] at h
    exact absurd h (by simp)

/-- C7: no event of the running program removes or replaces a building: every
frame, key event and resize leaves the `buildings` list exactly as it was and
keeps the length of `buildingBoxes` (a resize only recomputes the existing
boxes in place). -/
theorem buildings_never_removed (ev : Event) (w w1 : World)
    (h : stepEvent ev w = some w1) :
    w1.city.buildings = w.city.buildings ∧
    w1.city.buildingBoxes.length = w.city.buildingBoxes.length := by
  cases ev with
  | frame t q e s =>
      simp only [stepEvent, Option.some.injEq] at h
      subst h
      exact ⟨rfl, rfl⟩
  | keyDown k =>
      simp only [stepEvent, Option.some.injEq] at h
      subst h
      exact ⟨rfl, rfl⟩
  | keyUp k =>
      simp only [stepEvent, Option.some.injEq] at h
      subst h
      exact ⟨rfl, rfl⟩
  | resize =>
      rcases hr : recomputeBoxes w.city with _ | c
      · simp [stepEvent, hr] at h
      · simp only [stepEvent, hr, Option.some.injEq] at h
        subst h
        exact recomputeBoxes_shape w.city c hr

/-- Witness for C7: a resize of the sample world. -/
theorem buildings_never_removed_witness :
    sampleWorld.city.buildings = sampleWorld.city.buildings ∧
    sampleWorld.city.buildingBoxes.length = sampleWorld.city.buildingBoxes.length :=
  buildings_never_removed Event.resize sampleWorld sampleWorld rfl

end CityWalk
